import Mathlib

/-!
Shallow embedding of `src/QR_alert/lib/backgroundMonitor.js` (class
`BackgroundMonitor`) for verification of the specification's claims.

Modelling conventions:
* JS numbers are embedded as `ℚ` (all arithmetic in the file is exact:
  additions, divisions by 10/200, comparisons against decimal literals).
* The JS `%` operator on non-negative operands is `jsMod` (truncated
  remainder; for the simulator's non-negative seeds it coincides with the
  floored remainder).
* Epoch timestamps (`Date.getTime()`) are embedded as `ℤ` milliseconds.
* The `Intl.DateTimeFormat('en-CA', { timeZone: 'Asia/Tokyo', ... })`
  date key is embedded as the Tokyo civil day number `tokyoDay` (Tokyo is
  a fixed UTC+9 zone with no DST, so the formatted `YYYY-MM-DD` string is
  in bijection with this day number).
* File-system effects are embedded as ghost counters on the monitor state
  (`purgeCount`, `filesWritten`, `logLines`); a `writeOk : Bool` parameter
  models whether `fs.writeFileSync` succeeds or throws.
-/

namespace QRAlert

/-- Part status values occurring in the program ('emergency' appears only in
the evaluator's filter, never in the simulator). -/
inductive Status where
  | normal
  | warning
  | critical
  | emergency
deriving DecidableEq, Repr

/-- A part reading as produced by `getRobotData` (backgroundMonitor.js
lines 199-212). The `lastUpdate` ISO string is not modelled (no claim
concerns it). -/
structure PartReading where
  id : String
  name : String
  temperature : ℚ
  vibration : ℚ
  humidity : ℚ
  operatingHours : ℚ
  voltage : ℚ
  cpuLoad : ℚ
  abnormalNoise : Bool
  status : Status
deriving DecidableEq, Repr

/-- Truncation toward zero, as JS `%` uses for its implicit quotient. -/
def jsTrunc (q : ℚ) : ℤ := if 0 ≤ q then ⌊q⌋ else -⌊-q⌋

/-- JS remainder operator `x % y` (truncated remainder). -/
def jsMod (x y : ℚ) : ℚ := x - y * (jsTrunc (x / y) : ℚ)

/-- `(seed % 10) === 0` — temperature spike flag (line 167). -/
def tempSpike (seed : ℚ) : Bool := jsMod seed 10 == 0

/-- `(seed % 13) === 0` — vibration spike flag (line 171). -/
def vibSpike (seed : ℚ) : Bool := jsMod seed 13 == 0

/-- `(seed % 17) === 0` — humidity spike flag (line 174). -/
def humidSpike (seed : ℚ) : Bool := jsMod seed 17 == 0

/-- `(seed % 19) === 0` — abnormal noise flag (line 184). -/
def abnormalNoise (seed : ℚ) : Bool := jsMod seed 19 == 0

/-- `35 + (seed % 20)` plus `20` on a temperature spike (lines 166-168). -/
def temperature (seed : ℚ) : ℚ :=
  35 + jsMod seed 20 + (if tempSpike seed then 20 else 0)

/-- `0.1 + ((seed % 30) / 200)` (line 170). -/
def vibration (seed : ℚ) : ℚ := 1/10 + jsMod seed 30 / 200

/-- `40 + (seed % 30)` (line 173). -/
def humidity (seed : ℚ) : ℚ := 40 + jsMod seed 30

/-- `1 + (seed % 48)` (line 176). -/
def operatingHours (seed : ℚ) : ℚ := 1 + jsMod seed 48

/-- `24 - ((seed % 8) / 10)` (line 180). -/
def voltage (seed : ℚ) : ℚ := 24 - jsMod seed 8 / 10

/-- `30 + (seed % 70)` (line 182). -/
def cpuLoad (seed : ℚ) : ℚ := 30 + jsMod seed 70

/-- Status derivation of `getRobotData` (lines 186-197): tier-1 conditions
give `critical`, otherwise tier-2 conditions give `warning`, else `normal`.
`longRun`, `lowVoltage`, `highCpu` are inlined as in lines 177, 181, 183. -/
def computeStatus (seed : ℚ) : Status :=
  if temperature seed > 60 ∨ vibration seed > 0.4 ∨ humidity seed > 80 ∨
     operatingHours seed > 40 ∨ voltage seed < 22.5 ∨ cpuLoad seed > 85 ∨
     abnormalNoise seed = true ∨ vibSpike seed = true ∨ humidSpike seed = true ∨
     tempSpike seed = true then
    Status.critical
  else if temperature seed > 50 ∨ vibration seed > 0.3 ∨ humidity seed > 70 ∨
          operatingHours seed > 30 ∨ voltage seed < 23.0 ∨ cpuLoad seed > 75 then
    Status.warning
  else
    Status.normal

/-- One simulated part reading (the body of the `robotParts.map` callback in
`getRobotData`, lines 163-213), for a given random seed and part identity. -/
def simulatePart (seed : ℚ) (id name : String) : PartReading :=
  { id := id
    name := name
    temperature := temperature seed
    vibration := vibration seed
    humidity := humidity seed
    operatingHours := operatingHours seed
    voltage := voltage seed
    cpuLoad := cpuLoad seed
    abnormalNoise := abnormalNoise seed
    status := computeStatus seed }

/-- The fixed 7-part roster (lines 153-161). -/
def robotParts : List (String × String) :=
  [("head", "頭部"), ("left_arm", "左腕"), ("right_arm", "右腕"),
   ("torso", "胴体"), ("left_leg", "左脚"), ("right_leg", "右脚"),
   ("base", "ベース")]

/-- The parts list built by `getRobotData`, one independent random seed per
roster entry (line 164: `const seed = Math.random() * 1000`). -/
def simulateParts (seeds : List ℚ) : List PartReading :=
  (robotParts.zip seeds).map fun pr => simulatePart pr.2 pr.1.1 pr.1.2

/-- `criticalParts` partition of `checkRobotStatus` (lines 97-99). -/
def criticalPartsOf (parts : List PartReading) : List PartReading :=
  parts.filter fun p => p.status == Status.critical || p.status == Status.emergency

/-- `warningParts` partition of `checkRobotStatus` (lines 101-103). -/
def warningPartsOf (parts : List PartReading) : List PartReading :=
  parts.filter fun p => decide (p.temperature > 50) || p.status == Status.warning

/-- One entry of the history buffer (lines 219-225): the metric fields pushed
by `getRobotData`; the ISO `timestamp` string is kept abstract. -/
structure HistoryEntry where
  temperature : ℚ
  vibration : ℚ
  humidity : ℚ
  operatingHours : ℚ
  timestamp : String
deriving DecidableEq, Repr

/-- The last `n` elements of a list, i.e. JS `array.slice(-n)`. -/
def takeLast (n : ℕ) (l : List α) : List α := l.drop (l.length - n)

/-- One history-buffer update for a single `(robotId, partId)` key
(lines 219-229): push the new entry, then keep only the last 10 entries
when the length exceeds 10. -/
def appendHistory (buf : List HistoryEntry) (e : HistoryEntry) : List HistoryEntry :=
  let b := buf ++ [e]
  if b.length > 10 then takeLast 10 b else b

/-- The dedup map `lastReportTimes`: association list from
(robotId, Tokyo day number) to the last emission timestamp in epoch ms,
in key-insertion order (as JS object string keys are ordered). The code
stores the ISO string of the timestamp and re-parses it; both directions
are exact, so the `ℤ` timestamp is stored directly. -/
def DedupMap := List ((String × ℤ) × ℤ)
deriving DecidableEq, Repr

/-- Reading `this.lastReportTimes[reportKey]` (line 256). -/
def mapLookup (m : DedupMap) (k : String × ℤ) : Option ℤ :=
  match m with
  | [] => none
  | (k', v) :: rest => if k' = k then some v else mapLookup rest k

/-- Writing `this.lastReportTimes[reportKey] = ...` (line 302): overwrite in
place when the key exists, else append (JS object key-insertion order). -/
def mapInsert (m : DedupMap) (k : String × ℤ) (v : ℤ) : DedupMap :=
  match m with
  | [] => [(k, v)]
  | (k', v') :: rest =>
      if k' = k then (k, v) :: rest else (k', v') :: mapInsert rest k v

/-- Tokyo civil day number of an epoch-ms timestamp: Asia/Tokyo is fixed
UTC+9, so the `Intl` `YYYY-MM-DD` key of lines 250-252 determines and is
determined by `⌊(t + 9h) / 24h⌋`. -/
def tokyoDay (t : ℤ) : ℤ := Int.fdiv (t + 32400000) 86400000

/-- Days-since-epoch to proleptic-Gregorian (year, month, day), used to
render `Date.prototype.toISOString`. -/
def civilFromDays (z : ℤ) : ℤ × ℤ × ℤ :=
  let z' := z + 719468
  let era := Int.fdiv z' 146097
  let doe := z' - era * 146097
  let yoe := Int.fdiv (doe - Int.fdiv doe 1460 + Int.fdiv doe 36524 - Int.fdiv doe 146096) 365
  let y := yoe + era * 400
  let doy := doe - (365 * yoe + Int.fdiv yoe 4 - Int.fdiv yoe 100)
  let mp := Int.fdiv (5 * doy + 2) 153
  let d := doy - Int.fdiv (153 * mp + 2) 5 + 1
  let m := mp + (if mp < 10 then 3 else -9)
  (y + (if m ≤ 2 then 1 else 0), m, d)

/-- Zero-pad a non-negative integer to at least `w` digits. -/
def padZ (w : ℕ) (n : ℤ) : String :=
  let t := toString n.natAbs
  if t.length < w then String.mk (List.replicate (w - t.length) '0') ++ t else t

/-- `Date.prototype.toISOString` for an epoch-ms timestamp
(`YYYY-MM-DDTHH:MM:SS.mmmZ`, UTC). -/
def isoString (ms : ℤ) : String :=
  let q := Int.fdiv ms 1000
  let msPart := ms - 1000 * q
  let days := Int.fdiv q 86400
  let sod := q - 86400 * days
  let ymd := civilFromDays days
  let hh := Int.fdiv sod 3600
  let mi := Int.fdiv (sod - 3600 * hh) 60
  let ss := sod - 3600 * hh - 60 * mi
  padZ 4 ymd.1 ++ "-" ++ padZ 2 ymd.2.1 ++ "-" ++ padZ 2 ymd.2.2 ++ "T" ++
    padZ 2 hh ++ ":" ++ padZ 2 mi ++ ":" ++ padZ 2 ss ++ "." ++ padZ 3 msPart ++ "Z"

/-- `iso.replace(/[:.]/g, '-')` (line 280). -/
def replaceColonDot (s : String) : String :=
  String.mk (s.data.map fun c => if c = ':' ∨ c = '.' then '-' else c)

/-- `criticalParts.some(part => part.status === 'critical' || part.status ===
'emergency')` (lines 264-266). -/
def isCriticalOf (parts : List PartReading) : Bool :=
  parts.any fun p => p.status == Status.critical || p.status == Status.emergency

/-- The report filename of lines 278-281:
`${reportType}_report_${robotId}_${isoForFilename}.txt`. -/
def reportFilename (isCritical : Bool) (robotId : String) (now : ℤ) : String :=
  (if isCritical then "CRITICAL" else "emergency") ++ "_report_" ++ robotId ++
    "_" ++ replaceColonDot (isoString now) ++ ".txt"

/-- The numbered action-procedure block of `generateReportContent`
(lines 490-503): 6 steps when critical, 5 otherwise. -/
def actionProcedure (isCritical : Bool) : List String :=
  if isCritical then
    ["1. 即座にロボットの緊急停止を実行してください",
     "2. 工場責任者に緊急連絡してください",
     "3. 安全エリアから全員を避難させてください",
     "4. メンテナンスチームに緊急対応を要請してください",
     "5. 詳細な点検と修理を実施してください",
     "6. 再開前に完全な安全確認を完了してください"]
  else
    ["1. 即座にロボットの運転を停止してください",
     "2. 安全確認を実施してください",
     "3. メンテナンスチームに連絡してください",
     "4. 詳細な点検を実施してください",
     "5. 再開前に安全確認を完了してください"]

/-- Monitor state: the fields of `BackgroundMonitor` that the claims concern
(`isRunning`, `monitoringInterval` as a timer-active flag, `lastReportTimes`)
plus ghost counters of file-system effects: directory purges performed by
`startMonitoring`, report files written, and log lines appended. -/
structure MonitorState where
  isRunning : Bool
  timer : Bool
  lastReportTimes : DedupMap
  purgeCount : ℕ
  filesWritten : ℕ
  logLines : ℕ
deriving DecidableEq, Repr

/-- The freshly constructed monitor (constructor, lines 12-25). -/
def initMonitor : MonitorState :=
  { isRunning := false, timer := false, lastReportTimes := [],
    purgeCount := 0, filesWritten := 0, logLines := 0 }

/-- `startMonitoring` (lines 28-61): no-op when already running; otherwise
set the running flag, purge the reports directory, and install the timer. -/
def startMonitoring (s : MonitorState) : MonitorState :=
  if s.isRunning then s
  else { s with isRunning := true, timer := true, purgeCount := s.purgeCount + 1 }

/-- `stopMonitoring` (lines 64-73): no-op when not running; otherwise clear
the running flag and cancel the timer. -/
def stopMonitoring (s : MonitorState) : MonitorState :=
  if s.isRunning then { s with isRunning := false, timer := false } else s

/-- What an un-suppressed `generateEmergencyReport` call computed: the
severity flag of lines 264-266, the filename of lines 278-281, and whether
`fs.writeFileSync` succeeded (on failure the call returns at line 298 before
the dedup update and the log append). -/
structure EmitInfo where
  isCritical : Bool
  filename : String
  fileWritten : Bool
deriving DecidableEq, Repr

/-- `generateEmergencyReport` (lines 245-308) as a state transition.
`now` is the epoch-ms timestamp of `new Date()`; `writeOk` models whether
`fs.writeFileSync` succeeds. Returns the new state and `none` when the call
returned inside the 5-minute suppression window (line 260), otherwise
`some info`. -/
def generateEmergencyReport (s : MonitorState) (robotId : String)
    (parts : List PartReading) (now : ℤ) (writeOk : Bool) :
    MonitorState × Option EmitInfo :=
  let key : String × ℤ := (robotId, tokyoDay now)
  let suppressed :=
    match mapLookup s.lastReportTimes key with
    | some lastTime => decide (now - lastTime < 300000)
    | none => false
  if suppressed then (s, none)
  else
    let isCritical := isCriticalOf parts
    let filename := reportFilename isCritical robotId now
    if writeOk then
      ({ s with lastReportTimes := mapInsert s.lastReportTimes key now,
                filesWritten := s.filesWritten + 1,
                logLines := s.logLines + 1 },
       some { isCritical := isCritical, filename := filename, fileWritten := true })
    else
      (s, some { isCritical := isCritical, filename := filename, fileWritten := false })

/-- `h.temperature > 60 || h.vibration > 0.4 || h.humidity > 80 ||
h.operatingHours > 40` — the sustained-anomaly condition of the fallback
rule (lines 128-130). -/
def abnormalEntry (h : HistoryEntry) : Bool :=
  decide (h.temperature > 60) || decide (h.vibration > 0.4) ||
    decide (h.humidity > 80) || decide (h.operatingHours > 40)

/-- `robotData.parts.find(p => p.id === partId) || { id: partId, name:
partId }` (line 132); the fallback object of the not-found branch carries no
metric fields in JS, modelled with zero metrics here. -/
def partInfoFor (parts : List PartReading) (partId : String) : PartReading :=
  (parts.find? fun p => p.id == partId).getD
    { id := partId, name := partId, temperature := 0, vibration := 0,
      humidity := 0, operatingHours := 0, voltage := 0, cpuLoad := 0,
      abnormalNoise := false, status := Status.normal }

/-- The per-key body of the fallback block's loop (lines 124-135): take the
last 3 entries (`recent`); when there are exactly 3 and all are abnormal,
produce the part info with status forced to `critical`. -/
def suspiciousEntry (parts : List PartReading) (pe : String × List HistoryEntry) :
    Option PartReading :=
  if (takeLast 3 pe.2).length = 3 ∧ (takeLast 3 pe.2).all abnormalEntry = true then
    some { partInfoFor parts pe.1 with status := Status.critical }
  else none

/-- The `suspiciousParts` accumulation of the fallback block (lines 122-136):
the per-key pushes of `suspiciousEntry`, in history-key order. -/
def suspiciousPartsOf (history : List (String × List HistoryEntry))
    (parts : List PartReading) : List PartReading :=
  history.filterMap (suspiciousEntry parts)

/-- The fallback branch of `checkRobotStatus` (lines 119-141): evaluated only
when the monitor is stopped and the critical partition is empty; fires when
the synthesized set is non-empty. -/
def fallbackReport (isRunning : Bool) (parts : List PartReading)
    (history : List (String × List HistoryEntry)) : Option (List PartReading) :=
  if isRunning = false ∧ criticalPartsOf parts = [] then
    let sp := suspiciousPartsOf history parts
    if sp = [] then none else some sp
  else none

/-- `checkRobotStatus` (lines 89-146) restricted to which part sets it passes
to `generateEmergencyReport`, in call order: the critical partition when
non-empty, else the warning partition when non-empty; then the fallback set
when the fallback branch fires. -/
def checkRobotStatus (isRunning : Bool) (parts : List PartReading)
    (history : List (String × List HistoryEntry)) : List (List PartReading) :=
  let cps := criticalPartsOf parts
  let wps := warningPartsOf parts
  let immediate := if cps ≠ [] then [cps] else if wps ≠ [] then [wps] else []
  let fallback :=
    match fallbackReport isRunning parts history with
    | some sp => [sp]
    | none => []
  immediate ++ fallback

/-- The view returned by `getStatus` (lines 540-547). -/
structure StatusView where
  isRunning : Bool
  monitoringInterval : String
  reportsGenerated : ℕ
  lastReportTimes : DedupMap
deriving Repr

/-- `getStatus` (lines 540-547): `reportsGenerated` is
`Object.keys(this.lastReportTimes).length`, the number of dedup keys. -/
def getStatus (s : MonitorState) : StatusView :=
  { isRunning := s.isRunning
    monitoringInterval := if s.timer then "5 seconds" else "stopped"
    reportsGenerated := s.lastReportTimes.length
    lastReportTimes := s.lastReportTimes }

/-- A concrete critical reading (temperature 65 > 60), used to exercise the
emission path on concrete inputs. -/
def demoPart : PartReading :=
  { id := "head", name := "頭部", temperature := 65, vibration := 0,
    humidity := 50, operatingHours := 5, voltage := 24, cpuLoad := 50,
    abnormalNoise := false, status := Status.critical }

/-- A monitor state whose dedup map already records an emission at epoch 0
for ROBOT_001 on Tokyo day 0. -/
def demoMonA : MonitorState :=
  { initMonitor with lastReportTimes := [(("ROBOT_001", 0), 0)] }

/-- A history entry with temperature 65 (> 60, abnormal). -/
def demoEntry : HistoryEntry :=
  { temperature := 65, vibration := 0, humidity := 50, operatingHours := 5,
    timestamp := "" }

/-- A history buffer with three consecutive abnormal entries for `head`. -/
def demoHist : List (String × List HistoryEntry) :=
  [("head", [demoEntry, demoEntry, demoEntry])]

/-- A live reading for `head` with nothing abnormal. -/
def demoNormalPart : PartReading :=
  { id := "head", name := "頭部", temperature := 40, vibration := 0,
    humidity := 50, operatingHours := 5, voltage := 24, cpuLoad := 50,
    abnormalNoise := false, status := Status.normal }

theorem computeStatus_ne_emergency (seed : ℚ) : computeStatus seed ≠ Status.emergency := by
  unfold computeStatus
  split_ifs <;> simp

/-- C1: a simulated part reading has status `critical` iff a tier-1 condition
holds (temperature > 60, vibration > 0.4, humidity > 80, operatingHours > 40,
voltage < 22.5, cpuLoad > 85, abnormal noise, or any spike flag); `warning`
iff no tier-1 condition holds and a tier-2 condition holds (temperature > 50,
vibration > 0.3, humidity > 70, operatingHours > 30, voltage < 23.0,
cpuLoad > 75); `normal` otherwise. -/
theorem status_tier_classification (seed : ℚ) (id name : String) :
    ((simulatePart seed id name).status = Status.critical ↔
      ((simulatePart seed id name).temperature > 60 ∨
       (simulatePart seed id name).vibration > 0.4 ∨
       (simulatePart seed id name).humidity > 80 ∨
       (simulatePart seed id name).operatingHours > 40 ∨
       (simulatePart seed id name).voltage < 22.5 ∨
       (simulatePart seed id name).cpuLoad > 85 ∨
       (simulatePart seed id name).abnormalNoise = true ∨
       vibSpike seed = true ∨ humidSpike seed = true ∨ tempSpike seed = true)) ∧
    ((simulatePart seed id name).status = Status.warning ↔
      (¬ ((simulatePart seed id name).temperature > 60 ∨
          (simulatePart seed id name).vibration > 0.4 ∨
          (simulatePart seed id name).humidity > 80 ∨
          (simulatePart seed id name).operatingHours > 40 ∨
          (simulatePart seed id name).voltage < 22.5 ∨
          (simulatePart seed id name).cpuLoad > 85 ∨
          (simulatePart seed id name).abnormalNoise = true ∨
          vibSpike seed = true ∨ humidSpike seed = true ∨ tempSpike seed = true) ∧
       ((simulatePart seed id name).temperature > 50 ∨
        (simulatePart seed id name).vibration > 0.3 ∨
        (simulatePart seed id name).humidity > 70 ∨
        (simulatePart seed id name).operatingHours > 30 ∨
        (simulatePart seed id name).voltage < 23.0 ∨
        (simulatePart seed id name).cpuLoad > 75))) ∧
    ((simulatePart seed id name).status = Status.normal ↔
      (¬ ((simulatePart seed id name).temperature > 60 ∨
          (simulatePart seed id name).vibration > 0.4 ∨
          (simulatePart seed id name).humidity > 80 ∨
          (simulatePart seed id name).operatingHours > 40 ∨
          (simulatePart seed id name).voltage < 22.5 ∨
          (simulatePart seed id name).cpuLoad > 85 ∨
          (simulatePart seed id name).abnormalNoise = true ∨
          vibSpike seed = true ∨ humidSpike seed = true ∨ tempSpike seed = true) ∧
       ¬ ((simulatePart seed id name).temperature > 50 ∨
          (simulatePart seed id name).vibration > 0.3 ∨
          (simulatePart seed id name).humidity > 70 ∨
          (simulatePart seed id name).operatingHours > 30 ∨
          (simulatePart seed id name).voltage < 23.0 ∨
          (simulatePart seed id name).cpuLoad > 75))) := by
  simp only [simulatePart]
  unfold computeStatus
  split_ifs with h1 h2 <;> simp_all

/-- C9: every simulated reading has status in {normal, warning, critical} —
`emergency` is never generated — and therefore the evaluator's critical
partition over simulated parts degenerates to the `critical`-only filter. -/
theorem simulated_status_in_three (seeds : List ℚ) :
    ((simulateParts seeds).all fun p =>
       p.status == Status.normal || p.status == Status.warning ||
       p.status == Status.critical) = true ∧
    criticalPartsOf (simulateParts seeds) =
      (simulateParts seeds).filter fun p => p.status == Status.critical := by
  constructor
  · rw [List.all_eq_true]
    intro p hp
    simp only [simulateParts, List.mem_map] at hp
    obtain ⟨pr, _, rfl⟩ := hp
    simp only [simulatePart]
    cases h : computeStatus pr.2 with
    | emergency => exact absurd h (computeStatus_ne_emergency pr.2)
    | _ => simp
  · unfold criticalPartsOf
    apply List.filter_congr
    intro p hp
    simp only [simulateParts, List.mem_map] at hp
    obtain ⟨pr, _, rfl⟩ := hp
    simp only [simulatePart]
    cases h : computeStatus pr.2 with
    | emergency => exact absurd h (computeStatus_ne_emergency pr.2)
    | _ => simp

theorem takeLast_length (n : ℕ) (l : List α) :
    (takeLast n l).length = l.length - (l.length - n) := by
  simp [takeLast]

theorem takeLast_of_length_le (n : ℕ) (l : List α) (h : l.length ≤ n) :
    takeLast n l = l := by
  simp [takeLast, Nat.sub_eq_zero_of_le h]

theorem takeLast_append_of_le (n : ℕ) (a b : List α) (h : n ≤ b.length) :
    takeLast n (a ++ b) = takeLast n b := by
  unfold takeLast
  rw [List.length_append]
  have heq : a.length + b.length - n = a.length + (b.length - n) := by omega
  rw [heq, List.drop_append]

theorem takeLast_takeLast_append (n : ℕ) (m r : List α) :
    takeLast n (takeLast n m ++ r) = takeLast n (m ++ r) := by
  by_cases h : m.length ≤ n
  · rw [takeLast_of_length_le n m h]
  · calc takeLast n (takeLast n m ++ r)
        = takeLast n (m.drop (m.length - n) ++ r) := rfl
      _ = takeLast n (m.take (m.length - n) ++ (m.drop (m.length - n) ++ r)) :=
          (takeLast_append_of_le n _ _
            (by rw [List.length_append, List.length_drop]; omega)).symm
      _ = takeLast n (m ++ r) := by
          rw [← List.append_assoc, List.take_append_drop]

theorem appendHistory_eq_takeLast (buf : List HistoryEntry) (e : HistoryEntry) :
    appendHistory buf e = takeLast 10 (buf ++ [e]) := by
  simp only [appendHistory]
  split_ifs with h
  · rfl
  · exact (takeLast_of_length_le 10 _ (by simp at h ⊢; omega)).symm

/-- C3: for any key, appending readings one at a time from the empty buffer
leaves exactly the most recent min(n, 10) entries in insertion order (FIFO
eviction), so the buffer never exceeds 10 entries. `getRobotData` performs
one `appendHistory` per (robotId, partId) key per call. -/
theorem history_buffer_fifo (es : List HistoryEntry) :
    es.foldl appendHistory [] = takeLast 10 es ∧
    (es.foldl appendHistory []).length = min es.length 10 := by
  have key : es.foldl appendHistory [] = takeLast 10 es := by
    induction es using List.reverseRecOn with
    | nil => rfl
    | append_singleton l a ih =>
        rw [List.foldl_concat, ih, appendHistory_eq_takeLast, takeLast_takeLast_append]
  refine ⟨key, ?_⟩
  rw [key, takeLast_length]
  omega

/-- C10: `startMonitoring` and `stopMonitoring` are idempotent: starting an
already-running monitor is a no-op (no directory purge, no new timer) and
stopping a stopped monitor is a no-op; hence start∘start = start and
stop∘stop = stop. -/
theorem start_stop_idempotent (s : MonitorState) :
    startMonitoring (startMonitoring s) = startMonitoring s ∧
    stopMonitoring (stopMonitoring s) = stopMonitoring s ∧
    (s.isRunning = true → startMonitoring s = s) ∧
    (s.isRunning = false → stopMonitoring s = s) := by
  unfold startMonitoring stopMonitoring
  rcases s with ⟨ir, tm, m, pc, fw, ll⟩
  cases ir <;> simp

theorem start_stop_idempotent_witness :
    startMonitoring { initMonitor with isRunning := true } =
      { initMonitor with isRunning := true } ∧
    stopMonitoring initMonitor = initMonitor ∧
    startMonitoring (startMonitoring initMonitor) = startMonitoring initMonitor ∧
    stopMonitoring (stopMonitoring initMonitor) = stopMonitoring initMonitor :=
  ⟨(start_stop_idempotent { initMonitor with isRunning := true }).2.2.1 rfl,
   (start_stop_idempotent initMonitor).2.2.2 rfl,
   (start_stop_idempotent initMonitor).1,
   (start_stop_idempotent initMonitor).2.1⟩

/-- C5: when the report-file write fails, `generateEmergencyReport` leaves
the monitor state unchanged: the dedup map is not updated, no log line is
appended, and no file-written effect is recorded. -/
theorem write_failure_preserves_state (s : MonitorState) (robotId : String)
    (parts : List PartReading) (now : ℤ) :
    (generateEmergencyReport s robotId parts now false).1 = s := by
  unfold generateEmergencyReport
  dsimp only
  split
  · rfl
  · simp

/-- C2: with dedup key (robotId, Tokyo calendar day of `now`): if the dedup
map records a prior time t' with now − t' < 5 minutes the call emits nothing
and the whole state is unchanged; if no prior time is recorded, or
now − t' ≥ 5 minutes, a (successful) call emits: it writes the file, appends
a log line, and stores `now` under the key. -/
theorem dedup_suppression_window (s : MonitorState) (robotId : String)
    (parts : List PartReading) (now : ℤ) (writeOk : Bool) :
    (∀ t', mapLookup s.lastReportTimes (robotId, tokyoDay now) = some t' →
       now - t' < 300000 →
       generateEmergencyReport s robotId parts now writeOk = (s, none)) ∧
    (mapLookup s.lastReportTimes (robotId, tokyoDay now) = none →
       ∃ info, generateEmergencyReport s robotId parts now true =
         ({ s with
             lastReportTimes :=
               mapInsert s.lastReportTimes (robotId, tokyoDay now) now,
             filesWritten := s.filesWritten + 1,
             logLines := s.logLines + 1 }, some info) ∧
         info.fileWritten = true) ∧
    (∀ t', mapLookup s.lastReportTimes (robotId, tokyoDay now) = some t' →
       300000 ≤ now - t' →
       ∃ info, generateEmergencyReport s robotId parts now true =
         ({ s with
             lastReportTimes :=
               mapInsert s.lastReportTimes (robotId, tokyoDay now) now,
             filesWritten := s.filesWritten + 1,
             logLines := s.logLines + 1 }, some info) ∧
         info.fileWritten = true) := by
  refine ⟨?_, ?_, ?_⟩
  · intro t' hl hlt
    simp only [generateEmergencyReport]
    rw [hl]
    simp [hlt]
  · intro hl
    simp only [generateEmergencyReport]
    rw [hl]
    exact ⟨_, rfl, rfl⟩
  · intro t' hl hge
    simp only [generateEmergencyReport]
    rw [hl]
    dsimp only
    rw [decide_eq_false (not_lt.mpr hge)]
    exact ⟨⟨isCriticalOf parts, reportFilename (isCriticalOf parts) robotId now, true⟩,
      by norm_num, rfl⟩

theorem dedup_suppression_window_witness :
    (generateEmergencyReport demoMonA "ROBOT_001" [demoPart] 100000 true =
      (demoMonA, none)) ∧
    (∃ info, generateEmergencyReport initMonitor "ROBOT_001" [demoPart] 0 true =
      ({ initMonitor with
          lastReportTimes :=
            mapInsert initMonitor.lastReportTimes ("ROBOT_001", tokyoDay 0) 0,
          filesWritten := initMonitor.filesWritten + 1,
          logLines := initMonitor.logLines + 1 }, some info) ∧
      info.fileWritten = true) ∧
    (∃ info, generateEmergencyReport demoMonA "ROBOT_001" [demoPart] 400000 true =
      ({ demoMonA with
          lastReportTimes :=
            mapInsert demoMonA.lastReportTimes ("ROBOT_001", tokyoDay 400000) 400000,
          filesWritten := demoMonA.filesWritten + 1,
          logLines := demoMonA.logLines + 1 }, some info) ∧
      info.fileWritten = true) :=
  ⟨(dedup_suppression_window demoMonA "ROBOT_001" [demoPart] 100000 true).1 0
      (by decide) (by decide),
   (dedup_suppression_window initMonitor "ROBOT_001" [demoPart] 0 true).2.1
      (by decide),
   (dedup_suppression_window demoMonA "ROBOT_001" [demoPart] 400000 true).2.2 0
      (by decide) (by decide)⟩

/-- C8: two triggering events 2 minutes apart that straddle Tokyo midnight
(epoch 53940000 = 23:59 Tokyo day 0, epoch 54060000 = 00:01 Tokyo day 1)
both emit reports: the dedup keys differ, so the 5-minute suppression does
not apply. -/
theorem midnight_straddle_two_reports :
    (54060000 : ℤ) - 53940000 < 300000 ∧
    tokyoDay 53940000 ≠ tokyoDay 54060000 ∧
    Option.map EmitInfo.fileWritten
      (generateEmergencyReport initMonitor "ROBOT_001" [demoPart] 53940000 true).2 =
      some true ∧
    Option.map EmitInfo.fileWritten
      (generateEmergencyReport
        (generateEmergencyReport initMonitor "ROBOT_001" [demoPart] 53940000 true).1
        "ROBOT_001" [demoPart] 54060000 true).2 = some true ∧
    (generateEmergencyReport
        (generateEmergencyReport initMonitor "ROBOT_001" [demoPart] 53940000 true).1
        "ROBOT_001" [demoPart] 54060000 true).1.filesWritten =
      initMonitor.filesWritten + 2 ∧
    (generateEmergencyReport
        (generateEmergencyReport initMonitor "ROBOT_001" [demoPart] 53940000 true).1
        "ROBOT_001" [demoPart] 54060000 true).1.logLines =
      initMonitor.logLines + 2 := by
  refine ⟨by decide, by decide, rfl, rfl, rfl, rfl⟩

theorem mapInsert_length (m : DedupMap) (k : String × ℤ) (v : ℤ) :
    (mapInsert m k v).length =
      m.length + (if mapLookup m k = none then 1 else 0) := by
  induction m with
  | nil => simp [mapInsert, mapLookup]
  | cons p rest ih =>
      by_cases h : p.1 = k
      · simp [mapInsert, mapLookup, h]
      · simp only [mapInsert, mapLookup, if_neg h, List.length_cons, ih]
        omega

/-- C7 counterexample: after two successful emissions for the same robot on
the same Tokyo day (5+ minutes apart), two report files have been written
but `getStatus` reports `reportsGenerated = 1`: the returned count is not
the number of reports emitted. -/
theorem reports_count_counterexample :
    let s1 := (generateEmergencyReport initMonitor "ROBOT_001" [demoPart] 0 true).1
    let s2 := (generateEmergencyReport s1 "ROBOT_001" [demoPart] 400000 true).1
    s2.filesWritten = 2 ∧ (getStatus s2).reportsGenerated = 1 ∧
    (getStatus s2).reportsGenerated ≠ s2.filesWritten := by
  refine ⟨rfl, rfl, by decide⟩

/-- C7 (amended): `getStatus` returns the running flag, the tick-interval
description, and a snapshot of the dedup map, but the returned count is the
number of distinct dedup keys (robot–Tokyo-day pairs with at least one
emission): it increments on an emission only when the key is new. -/
theorem getStatus_key_count (s : MonitorState) (robotId : String)
    (parts : List PartReading) (now : ℤ) (writeOk : Bool) :
    (getStatus s).isRunning = s.isRunning ∧
    (getStatus s).monitoringInterval =
      (if s.timer then "5 seconds" else "stopped") ∧
    (getStatus s).lastReportTimes = s.lastReportTimes ∧
    (getStatus s).reportsGenerated = s.lastReportTimes.length ∧
    (getStatus (generateEmergencyReport s robotId parts now writeOk).1).reportsGenerated =
      (getStatus s).reportsGenerated +
        (if writeOk = true ∧
            mapLookup s.lastReportTimes (robotId, tokyoDay now) = none
         then 1 else 0) := by
  refine ⟨rfl, rfl, rfl, rfl, ?_⟩
  simp only [generateEmergencyReport, getStatus]
  cases hl : mapLookup s.lastReportTimes (robotId, tokyoDay now) with
  | some t' =>
      by_cases hlt : now - t' < 300000
      · simp [hl, hlt]
      · cases writeOk <;> simp [hl, decide_eq_false hlt, mapInsert_length]
  | none =>
      cases writeOk <;> simp [hl, mapInsert_length]

theorem suspiciousPartsOf_ne_nil_iff (history : List (String × List HistoryEntry))
    (parts : List PartReading) :
    suspiciousPartsOf history parts ≠ [] ↔
      ∃ pe ∈ history, 3 ≤ pe.2.length ∧ (takeLast 3 pe.2).all abnormalEntry = true := by
  rw [Ne, suspiciousPartsOf, List.filterMap_eq_nil_iff]
  push_neg
  constructor
  · rintro ⟨pe, hmem, hne⟩
    refine ⟨pe, hmem, ?_⟩
    by_cases hc : (takeLast 3 pe.2).length = 3 ∧ (takeLast 3 pe.2).all abnormalEntry = true
    · have hlen : (takeLast 3 pe.2).length = 3 := hc.1
      have : 3 ≤ pe.2.length := by
        rw [takeLast_length] at hlen; omega
      exact ⟨this, hc.2⟩
    · rw [suspiciousEntry] at hne
      exact absurd (if_neg hc) hne
  · rintro ⟨pe, hmem, hlen, hall⟩
    refine ⟨pe, hmem, ?_⟩
    have hc : (takeLast 3 pe.2).length = 3 ∧ (takeLast 3 pe.2).all abnormalEntry = true := by
      refine ⟨?_, hall⟩
      rw [takeLast_length]; omega
    rw [suspiciousEntry, if_pos hc]
    simp

theorem suspicious_mem_status (history : List (String × List HistoryEntry))
    (parts : List PartReading) :
    ∀ p ∈ suspiciousPartsOf history parts, p.status = Status.critical := by
  intro p hp
  simp only [suspiciousPartsOf, List.mem_filterMap] at hp
  obtain ⟨pe, _, hf⟩ := hp
  rw [suspiciousEntry] at hf
  by_cases hc : (takeLast 3 pe.2).length = 3 ∧ (takeLast 3 pe.2).all abnormalEntry = true
  · rw [if_pos hc] at hf
    injection hf with hf'
    rw [← hf']
  · rw [if_neg hc] at hf
    cases hf

/-- C4: the fallback path fires iff the monitor is not running, the critical
partition is empty, and some history key has ≥ 3 entries whose last 3 all
satisfy (temperature > 60 ∨ vibration > 0.4 ∨ humidity > 80 ∨
operatingHours > 40); when it fires, the synthesized set is exactly
`suspiciousPartsOf`, every synthesized part has status forced to `critical`,
and a critical-severity report is triggered for exactly that set. -/
theorem fallback_rule (isRunning : Bool) (parts : List PartReading)
    (history : List (String × List HistoryEntry)) :
    ((fallbackReport isRunning parts history).isSome = true ↔
      (isRunning = false ∧ criticalPartsOf parts = [] ∧
       ∃ pe ∈ history, 3 ≤ pe.2.length ∧ (takeLast 3 pe.2).all abnormalEntry = true)) ∧
    (∀ r, fallbackReport isRunning parts history = some r →
      r = suspiciousPartsOf history parts ∧
      (∀ p ∈ r, p.status = Status.critical) ∧
      isCriticalOf r = true ∧
      r ∈ checkRobotStatus isRunning parts history) := by
  constructor
  · simp only [fallbackReport]
    split_ifs with h hsp
    · obtain ⟨h1, h2⟩ := h
      simp only [Option.isSome_none, Bool.false_eq_true, false_iff]
      rintro ⟨-, -, hex⟩
      exact (suspiciousPartsOf_ne_nil_iff history parts).mpr hex hsp
    · obtain ⟨h1, h2⟩ := h
      simp only [Option.isSome_some, true_iff]
      exact ⟨h1, h2, (suspiciousPartsOf_ne_nil_iff history parts).mp hsp⟩
    · simp only [Option.isSome_none, Bool.false_eq_true, false_iff]
      rintro ⟨ha, hb, -⟩
      exact h ⟨ha, hb⟩
  · intro r hr
    have hr' := hr
    simp only [fallbackReport] at hr'
    split_ifs at hr' with h hsp
    rw [Option.some_inj] at hr'
    subst hr'
    refine ⟨rfl, suspicious_mem_status history parts, ?_, ?_⟩
    · obtain ⟨x, hx⟩ := List.exists_mem_of_ne_nil _ hsp
      rw [isCriticalOf, List.any_eq_true]
      refine ⟨x, hx, ?_⟩
      rw [suspicious_mem_status history parts x hx]
      rfl
    · unfold checkRobotStatus
      rw [hr]
      exact List.mem_append_right _ (List.mem_singleton_self _)

theorem fallback_rule_witness :
    (fallbackReport false [demoNormalPart] demoHist).isSome = true ∧
    suspiciousPartsOf demoHist [demoNormalPart] ∈
      checkRobotStatus false [demoNormalPart] demoHist ∧
    isCriticalOf (suspiciousPartsOf demoHist [demoNormalPart]) = true ∧
    (∀ p ∈ suspiciousPartsOf demoHist [demoNormalPart], p.status = Status.critical) := by
  have h := fallback_rule false [demoNormalPart] demoHist
  have h2 := h.2 (suspiciousPartsOf demoHist [demoNormalPart]) (by decide)
  exact ⟨h.1.mpr ⟨rfl, by decide,
          ⟨("head", [demoEntry, demoEntry, demoEntry]), by decide, by decide, by decide⟩⟩,
        h2.2.2.2, h2.2.2.1, h2.2.1⟩

/-- C6: an emitted report is rendered at critical severity iff some part in
the affected set has status `critical` or `emergency`; at critical severity
the filename starts with `CRITICAL_report_` and the action-procedure block
has 6 numbered steps, otherwise it starts with `emergency_report_` and has
5 numbered steps. -/
theorem report_severity_filename_steps (s : MonitorState) (robotId : String)
    (parts : List PartReading) (now : ℤ) (writeOk : Bool) (s' : MonitorState)
    (info : EmitInfo)
    (hemit : generateEmergencyReport s robotId parts now writeOk = (s', some info)) :
    (info.isCritical = true ↔
      ∃ p ∈ parts, p.status = Status.critical ∨ p.status = Status.emergency) ∧
    (info.isCritical = true →
      info.filename = "CRITICAL_report_" ++
        (robotId ++ ("_" ++ (replaceColonDot (isoString now) ++ ".txt"))) ∧
      (actionProcedure info.isCritical).length = 6) ∧
    (info.isCritical = false →
      info.filename = "emergency_report_" ++
        (robotId ++ ("_" ++ (replaceColonDot (isoString now) ++ ".txt"))) ∧
      (actionProcedure info.isCritical).length = 5) := by
  have hinfo : info.isCritical = isCriticalOf parts ∧
      info.filename = reportFilename (isCriticalOf parts) robotId now := by
    simp only [generateEmergencyReport] at hemit
    split at hemit
    · simp at hemit
    · split at hemit
      · have h2 := congrArg Prod.snd hemit
        simp only [Option.some_inj] at h2
        rw [← h2]
        exact ⟨rfl, rfl⟩
      · have h2 := congrArg Prod.snd hemit
        simp only [Option.some_inj] at h2
        rw [← h2]
        exact ⟨rfl, rfl⟩
  obtain ⟨hic, hfn⟩ := hinfo
  refine ⟨?_, ?_, ?_⟩
  · rw [hic]
    simp [isCriticalOf, List.any_eq_true]
  · intro h6
    rw [h6] at hic ⊢
    rw [hfn, ← hic]
    refine ⟨?_, rfl⟩
    rw [reportFilename]
    have hpre : ("CRITICAL_report_" : String) = "CRITICAL" ++ "_report_" := by decide
    rw [hpre]
    simp [String.append_assoc]
  · intro h5
    rw [h5] at hic ⊢
    rw [hfn, ← hic]
    refine ⟨?_, rfl⟩
    rw [reportFilename]
    have hpre : ("emergency_report_" : String) = "emergency" ++ "_report_" := by decide
    rw [hpre]
    simp [String.append_assoc]

theorem report_severity_filename_steps_witness :
    reportFilename true "ROBOT_001" 0 = "CRITICAL_report_" ++
      ("ROBOT_001" ++ ("_" ++ (replaceColonDot (isoString 0) ++ ".txt"))) ∧
    (actionProcedure true).length = 6 ∧
    (∃ p ∈ [demoPart], p.status = Status.critical ∨ p.status = Status.emergency) := by
  have hemit : generateEmergencyReport initMonitor "ROBOT_001" [demoPart] 0 true =
      ({ isRunning := false, timer := false,
         lastReportTimes := [(("ROBOT_001", 0), 0)], purgeCount := 0,
         filesWritten := 1, logLines := 1 },
       some { isCritical := true, filename := reportFilename true "ROBOT_001" 0,
              fileWritten := true }) := by rfl
  have h := report_severity_filename_steps initMonitor "ROBOT_001" [demoPart] 0 true
      _ _ hemit
  exact ⟨(h.2.1 rfl).1, (h.2.1 rfl).2, h.1.mp rfl⟩

end QRAlert
